import Mathlib

/-!
Shallow embedding of the document-storage service (src/app): the data model
of models.py, the response schemas of schemas.py, and the five request
handlers of main.py, as pure functions over an explicit store state.

The relational store is modelled as lists of records; the SQLAlchemy queries
of main.py become list operations:
  - `query(File).filter(original_name == n).order_by(version.desc()).first()`
    is used only through its `.version` field, i.e. the maximum version among
    records with that name (`maxVersionOpt`);
  - `query(File).filter(File.id == fid).first()` becomes `List.find?`;
  - `query(Analysis).filter(Analysis.file_id == fid).first()` becomes
    `List.find?`;
  - `order_by(uploaded_at.desc()).all()` becomes a sort by descending
    `uploaded_at` (`orderedFiles`).
Autoincrement primary keys become explicit counters; `datetime.utcnow`
becomes a logical clock that advances on each upload; the bytes written to
the storage directory are recorded as `(path, size)` pairs.
-/

namespace DocStorage

/-- File record, mirroring `class File` of src/app/models.py. -/
structure FileRec where
  id : Nat
  original_name : String
  version : Nat
  path : String
  size : Nat
  uploaded_by : Nat
  uploaded_at : Nat
deriving DecidableEq, Repr

/-- Analysis record, mirroring `class Analysis` of src/app/models.py. -/
structure AnalysisRec where
  id : Nat
  file_id : Nat
  result : String
deriving DecidableEq, Repr

/-- An HTTP error response, mirroring fastapi's HTTPException as raised in main.py. -/
structure HTTPException where
  status_code : Nat
  detail : String
deriving DecidableEq, Repr

/-- The whole mutable state: the two relational tables, the storage
directory contents, the autoincrement counters and the logical clock. -/
structure Store where
  files : List FileRec
  analyses : List AnalysisRec
  storage : List (String × Nat)
  nextFileId : Nat
  nextAnalysisId : Nat
  clock : Nat
deriving DecidableEq, Repr

/-- The state after `init_db()` on a fresh database: empty tables, empty
storage directory, autoincrement ids starting at 1. -/
def emptyStore : Store :=
  { files := [], analyses := [], storage := [], nextFileId := 1, nextAnalysisId := 1, clock := 0 }

/-- Mirrors `FileUploadResponse` of src/app/schemas.py. -/
structure FileUploadResponse where
  id : Nat
  file_name : String
  version : Nat
  size : Nat
  uploaded_at : Nat
deriving DecidableEq, Repr

/-- Mirrors `FileListItem` of src/app/schemas.py (`uploaded_at` serialised to a string). -/
structure FileListItem where
  id : Nat
  file_name : String
  version : Nat
  size : Nat
  uploaded_at : String
deriving DecidableEq, Repr

/-- Mirrors `AnalysisResponse` of src/app/schemas.py. -/
structure AnalysisResponse where
  file_id : Nat
  analysis_id : Nat
  result : String
deriving DecidableEq, Repr

/-- Mirrors `AnalysisResultResponse` of src/app/schemas.py. -/
structure AnalysisResultResponse where
  file_id : Nat
  file_name : String
  version : Nat
  analysis_result : String
deriving DecidableEq, Repr

/-- Mirrors `FileResponse` of src/app/schemas.py. -/
structure FileResponse where
  id : Nat
  file_name : String
  version : Nat
  size : Nat
  uploaded_at : Nat
deriving DecidableEq, Repr

/-- Mirror of `mock_ai_analysis` in src/app/main.py, lines 39-50: a pure function from
(name, size, version) to a Russian result string.  Python ints are unbounded
and the size is never checked for sign, so the size is an `Int`. -/
def mock_ai_analysis (file_name : String) (file_size : Int) (version : Nat) : String :=
  if file_size < 10000 then
    "Файл '" ++ file_name ++ "' очень маленький (" ++ toString file_size ++
      " байт), версия " ++ toString version ++ ". Изменения минимальны."
  else if file_size < 100000 then
    "Файл '" ++ file_name ++ "' относительно небольшой (" ++ toString file_size ++
      " байт), новое изменение выглядит незначительным."
  else if file_size < 1000000 then
    "Файл '" ++ file_name ++ "' среднего размера (" ++ toString file_size ++
      " байт), версия " ++ toString version ++ ". Возможны существенные изменения."
  else
    "Файл '" ++ file_name ++ "' большой (" ++ toString file_size ++
      " байт), версия " ++ toString version ++ ". Документ содержит значительный объем данных."

/-- Maximum of a list of naturals, `none` on the empty list. -/
def listMaxNat : List Nat → Option Nat
  | [] => none
  | v :: vs =>
    match listMaxNat vs with
    | none => some v
    | some m => some (Nat.max v m)

/-- The versions of all file records with the given original name. -/
def fileVersions (files : List FileRec) (name : String) : List Nat :=
  (files.filter (fun f => f.original_name == name)).map (fun f => f.version)

/-- The version of
`db.query(File).filter(File.original_name == name).order_by(File.version.desc()).first()`
(main.py lines 76-78): the maximum version among records with that exact
name, `none` when no such record exists.  Only the `.version` field of that
row is ever used, so the row itself need not be modelled. -/
def maxVersionOpt (files : List FileRec) (name : String) : Option Nat :=
  listMaxNat (fileVersions files name)

def STORAGE_DIR : String := "./storage"

/-- Mirror of `upload_file` in src/app/main.py, lines 66-113.  `contents` is the byte
count of the uploaded body (only the length is observable in the model). -/
def upload_file (st : Store) (filename : String) (contents : Nat) :
    Except HTTPException (FileUploadResponse × Store) :=
  if filename = "" then
    .error { status_code := 400, detail := "Файл не выбран" }
  else
    let version : Nat :=
      match maxVersionOpt st.files filename with
      | some v => v + 1
      | none => 1
    let filename_on_disk := filename ++ "_v" ++ toString version
    let filepath := STORAGE_DIR ++ "/" ++ filename_on_disk
    let file_db : FileRec :=
      { id := st.nextFileId, original_name := filename, version := version,
        path := filepath, size := contents, uploaded_by := 1, uploaded_at := st.clock }
    let st' : Store :=
      { st with files := st.files ++ [file_db],
                storage := st.storage ++ [(filepath, contents)],
                nextFileId := st.nextFileId + 1,
                clock := st.clock + 1 }
    .ok ({ id := file_db.id, file_name := filename, version := version,
           size := contents, uploaded_at := file_db.uploaded_at }, st')

/-- Descending order on upload time: `a` comes no later than `b` in the
listing when `b.uploaded_at ≤ a.uploaded_at` (`order_by(uploaded_at.desc())`). -/
def newerFirst (a b : FileRec) : Prop := b.uploaded_at ≤ a.uploaded_at

instance : DecidableRel newerFirst := fun a b => Nat.decLe b.uploaded_at a.uploaded_at

instance : IsTotal FileRec newerFirst :=
  ⟨fun a b => Nat.le_total b.uploaded_at a.uploaded_at⟩

instance : IsTrans FileRec newerFirst :=
  ⟨fun _ _ _ hab hbc => Nat.le_trans hbc hab⟩

/-- The rows returned by `query(File).order_by(File.uploaded_at.desc()).all()`
(main.py line 119): all file records, sorted by `uploaded_at` descending. -/
def orderedFiles (st : Store) : List FileRec :=
  List.insertionSort newerFirst st.files

/-- Serialisation of one row in the listing (main.py lines 123-132). -/
def fileToItem (f : FileRec) : FileListItem :=
  { id := f.id, file_name := f.original_name, version := f.version,
    size := f.size, uploaded_at := toString f.uploaded_at }

/-- Mirror of `get_files` in src/app/main.py, lines 115-132. -/
def get_files (st : Store) : List FileListItem :=
  (orderedFiles st).map fileToItem

/-- Mirror of `analyze_file` in src/app/main.py, lines 134-179: 404 when the file id is
unknown; otherwise compute the mock analysis and upsert it by `file_id`
(update the existing row's `result` in place, else insert a new row). -/
def analyze_file (st : Store) (file_id : Nat) :
    Except HTTPException (AnalysisResponse × Store) :=
  match st.files.find? (fun f => f.id == file_id) with
  | none => .error { status_code := 404, detail := "Файл не найден" }
  | some file_db =>
    let analysis_result :=
      mock_ai_analysis file_db.original_name (file_db.size : Int) file_db.version
    match st.analyses.find? (fun a => a.file_id == file_id) with
    | some existing_analysis =>
      let analyses' := st.analyses.map (fun a =>
        if a.id == existing_analysis.id then { a with result := analysis_result } else a)
      .ok ({ file_id := file_id, analysis_id := existing_analysis.id,
             result := analysis_result }, { st with analyses := analyses' })
    | none =>
      let analysis : AnalysisRec :=
        { id := st.nextAnalysisId, file_id := file_id, result := analysis_result }
      .ok ({ file_id := file_id, analysis_id := analysis.id, result := analysis_result },
           { st with analyses := st.analyses ++ [analysis],
                     nextAnalysisId := st.nextAnalysisId + 1 })

/-- The detail string of the second 404 of `get_analysis` (main.py lines
196-199); in the source it is a plain string, so `{file_id}` appears
literally in it. -/
def analysisNotFoundDetail : String :=
  "Анализ не найден. Сначала запустите POST /files/{file_id}/analyze"

/-- Mirror of `get_analysis` in src/app/main.py, lines 181-208.  The handler only
queries; it performs no `add`/`commit`, so it is modelled as a read-only
function that returns no new store. -/
def get_analysis (st : Store) (file_id : Nat) :
    Except HTTPException AnalysisResultResponse :=
  match st.files.find? (fun f => f.id == file_id) with
  | none => .error { status_code := 404, detail := "Файл не найден" }
  | some file_db =>
    match st.analyses.find? (fun a => a.file_id == file_id) with
    | none => .error { status_code := 404, detail := analysisNotFoundDetail }
    | some analysis =>
      .ok { file_id := file_id, file_name := file_db.original_name,
            version := file_db.version, analysis_result := analysis.result }

/-- Mirror of `get_file_info` in src/app/main.py, lines 210-227 (read-only). -/
def get_file_info (st : Store) (file_id : Nat) :
    Except HTTPException FileResponse :=
  match st.files.find? (fun f => f.id == file_id) with
  | none => .error { status_code := 404, detail := "Файл не найден" }
  | some file_db =>
    .ok { id := file_db.id, file_name := file_db.original_name,
          version := file_db.version, size := file_db.size,
          uploaded_at := file_db.uploaded_at }

/-- A sequence of consecutive uploads of the same name, one per entry of
`sizes`; collects the responses in order. -/
def uploadCalls (name : String) : List Nat → Store →
    Except HTTPException (List FileUploadResponse × Store)
  | [], st => .ok ([], st)
  | sz :: rest, st =>
    match upload_file st name sz with
    | .error e => .error e
    | .ok (r, st') =>
      match uploadCalls name rest st' with
      | .error e => .error e
      | .ok (rs, st'') => .ok (r :: rs, st'')

/-- Runs `n` consecutive calls of `analyze_file` on the same file id; collects the
responses in order. -/
def analyzeCalls (f : Nat) : Nat → Store →
    Except HTTPException (List AnalysisResponse × Store)
  | 0, st => .ok ([], st)
  | n + 1, st =>
    match analyze_file st f with
    | .error e => .error e
    | .ok (r, st') =>
      match analyzeCalls f n st' with
      | .error e => .error e
      | .ok (rs, st'') => .ok (r :: rs, st'')

/-- The analysis rows whose `file_id` equals `f`. -/
def analysesFor (st : Store) (f : Nat) : List AnalysisRec :=
  st.analyses.filter (fun a => a.file_id == f)

/-- Tests whether `needle` is an initial segment of `hay` (over character lists). -/
def listLeads : List Char → List Char → Bool
  | [], _ => true
  | _ :: _, [] => false
  | a :: as, b :: bs => a == b && listLeads as bs

/-- Tests whether `needle` occurs contiguously somewhere in `hay` (over character lists). -/
def listWithin (needle : List Char) : List Char → Bool
  | [] => needle.isEmpty
  | c :: t => listLeads needle (c :: t) || listWithin needle t

/-- Tests whether `needle` is a contiguous substring of `hay`. -/
def strWithin (hay needle : String) : Bool :=
  listWithin needle.data hay.data

/-- The four size buckets of the spec's §4.3 table. -/
inductive SizeBucket
  | small
  | mediumSmall
  | medium
  | large
deriving DecidableEq, Repr

/-- The spec-side classifier (§4.3): closed lower bounds at 10.000, 100.000
and 1.000.000 bytes. -/
def sizeBucket (file_size : Int) : SizeBucket :=
  if file_size < 10000 then .small
  else if file_size < 100000 then .mediumSmall
  else if file_size < 1000000 then .medium
  else .large

/-- The result template of each bucket, as produced by `mock_ai_analysis`. -/
def bucketResult : SizeBucket → String → Int → Nat → String
  | .small, n, s, v =>
    "Файл '" ++ n ++ "' очень маленький (" ++ toString s ++
      " байт), версия " ++ toString v ++ ". Изменения минимальны."
  | .mediumSmall, n, s, _ =>
    "Файл '" ++ n ++ "' относительно небольшой (" ++ toString s ++
      " байт), новое изменение выглядит незначительным."
  | .medium, n, s, v =>
    "Файл '" ++ n ++ "' среднего размера (" ++ toString s ++
      " байт), версия " ++ toString v ++ ". Возможны существенные изменения."
  | .large, n, s, v =>
    "Файл '" ++ n ++ "' большой (" ++ toString s ++
      " байт), версия " ++ toString v ++ ". Документ содержит значительный объем данных."

/-! ### Derived definitions used by the theorems -/

/-- Maximum of a list of naturals, `0` on the empty list. -/
def maxNat0 : List Nat → Nat
  | [] => 0
  | v :: vs => Nat.max v (maxNat0 vs)

/-- The version a successful upload assigns, in closed form. -/
def assignedVersion (st : Store) (name : String) : Nat :=
  maxNat0 (fileVersions st.files name) + 1

/-- The on-disk path a successful upload writes to, in closed form. -/
def assignedPath (st : Store) (name : String) : String :=
  STORAGE_DIR ++ "/" ++ (name ++ "_v" ++ toString (assignedVersion st name))

/-- The file record a successful upload appends, in closed form. -/
def uploadedRec (st : Store) (name : String) (sz : Nat) : FileRec :=
  { id := st.nextFileId, original_name := name, version := assignedVersion st name,
    path := assignedPath st name, size := sz, uploaded_by := 1, uploaded_at := st.clock }

/-- The state a successful upload produces, in closed form. -/
def uploadedStore (st : Store) (name : String) (sz : Nat) : Store :=
  { files := st.files ++ [uploadedRec st name sz],
    analyses := st.analyses,
    storage := st.storage ++ [(assignedPath st name, sz)],
    nextFileId := st.nextFileId + 1,
    nextAnalysisId := st.nextAnalysisId,
    clock := st.clock + 1 }

/-- The analysis string `analyze_file` computes for a given file record. -/
def mockRes (fr : FileRec) : String :=
  mock_ai_analysis fr.original_name (fr.size : Int) fr.version

/-- A concrete file record, as produced by uploading "test.pdf" (12 bytes)
into the empty store. -/
def sampleFile1 : FileRec :=
  { id := 1, original_name := "test.pdf", version := 1,
    path := "./storage/test.pdf_v1", size := 12, uploaded_by := 1, uploaded_at := 0 }

/-- A concrete store holding one uploaded file and no analyses. -/
def sampleStore1 : Store :=
  { files := [sampleFile1],
    analyses := [],
    storage := [("./storage/test.pdf_v1", 12)],
    nextFileId := 2, nextAnalysisId := 1, clock := 1 }

/-! ### Helper lemmas -/

theorem listMaxNat_eq_maxNat0 : ∀ l : List Nat, l ≠ [] → listMaxNat l = some (maxNat0 l)
  | [v], _ => by simp [listMaxNat, maxNat0]
  | v :: w :: vs, _ => by
    rw [listMaxNat, listMaxNat_eq_maxNat0 (w :: vs) (by simp), maxNat0]
    rfl

theorem le_maxNat0 {v : Nat} : ∀ {l : List Nat}, v ∈ l → v ≤ maxNat0 l
  | a :: t, h => by
    rw [maxNat0]
    rcases List.mem_cons.1 h with h | h
    · exact h ▸ Nat.le_max_left a (maxNat0 t)
    · exact Nat.le_trans (le_maxNat0 h) (Nat.le_max_right a (maxNat0 t))

theorem maxNat0_append (l : List Nat) (v : Nat) : maxNat0 (l ++ [v]) = Nat.max (maxNat0 l) v := by
  induction l with
  | nil => simp [maxNat0]
  | cons a t ih => simp [maxNat0, ih, Nat.max_assoc]

theorem find?_eq_head_filter {α : Type} (p : α → Bool) (l : List α) :
    l.find? p = (l.filter p).head? := by
  induction l with
  | nil => rfl
  | cons a t ih =>
    cases h : p a with
    | true => simp [List.find?_cons, List.filter_cons, h]
    | false =>
      rw [List.find?_cons, List.filter_cons, h]
      exact ih

theorem listWithin_nil_needle : ∀ hay : List Char, listWithin [] hay = true
  | [] => rfl
  | _ :: _ => rfl

theorem listLeads_append : ∀ (n r : List Char), listLeads n (n ++ r) = true
  | [], _ => rfl
  | a :: as, r => by
    show (a == a && listLeads as (as ++ r)) = true
    rw [beq_self_eq_true, Bool.true_and]
    exact listLeads_append as r

theorem listWithin_append : ∀ (p n q : List Char), listWithin n (p ++ (n ++ q)) = true
  | [], n, q => by
    cases n with
    | nil => exact listWithin_nil_needle _
    | cons a as =>
      show (listLeads (a :: as) ((a :: as) ++ q) || listWithin (a :: as) (as ++ q)) = true
      rw [listLeads_append (a :: as) q, Bool.true_or]
  | x :: p, n, q => by
    show (listLeads n ((x :: p) ++ (n ++ q)) || listWithin n (p ++ (n ++ q))) = true
    rw [listWithin_append p n q, Bool.or_true]

theorem strWithin_of_data (hay b : String) (p q : List Char)
    (h : hay.data = p ++ (b.data ++ q)) : strWithin hay b = true := by
  rw [strWithin, h]
  exact listWithin_append p b.data q

theorem nextVersion_eq (files : List FileRec) (name : String) :
    (match maxVersionOpt files name with
     | some v => v + 1
     | none => 1) = maxNat0 (fileVersions files name) + 1 := by
  rw [maxVersionOpt]
  rcases hv : fileVersions files name with _ | ⟨v, vs⟩
  · rfl
  · rw [listMaxNat_eq_maxNat0 _ (by simp)]

/-- Characterisation of a successful upload: with a non-empty filename the
handler succeeds, assigns version `max existing + 1` (max `0` when no record
of that name exists), appends the file record and the storage write, bumps
the id counter and the clock, and touches nothing else. -/
theorem upload_file_ok (st : Store) (name : String) (sz : Nat) (hn : ¬ name = "") :
    upload_file st name sz = .ok
      ({ id := st.nextFileId, file_name := name, version := assignedVersion st name,
         size := sz, uploaded_at := st.clock },
       uploadedStore st name sz) := by
  rw [upload_file, if_neg hn]
  rw [nextVersion_eq st.files name]
  rfl

theorem fileVersions_uploadedStore (st : Store) (name : String) (sz : Nat) :
    fileVersions (uploadedStore st name sz).files name
      = fileVersions st.files name ++ [assignedVersion st name] := by
  show fileVersions (st.files ++ [uploadedRec st name sz]) name = _
  rw [fileVersions, List.filter_append, List.map_append]
  have h1 : (st.files.filter (fun f => f.original_name == name)).map (fun f => f.version)
      = fileVersions st.files name := rfl
  have h2 : List.filter (fun f => f.original_name == name) [uploadedRec st name sz]
      = [uploadedRec st name sz] := by
    rw [List.filter_cons]
    simp [uploadedRec]
  rw [h1, h2]
  rfl

theorem assignedVersion_uploadedStore (st : Store) (name : String) (sz : Nat) :
    assignedVersion (uploadedStore st name sz) name = assignedVersion st name + 1 := by
  rw [assignedVersion, fileVersions_uploadedStore, maxNat0_append]
  rw [show assignedVersion st name = maxNat0 (fileVersions st.files name) + 1 from rfl]
  have hmax : Nat.max (maxNat0 (fileVersions st.files name))
      (maxNat0 (fileVersions st.files name) + 1)
      = maxNat0 (fileVersions st.files name) + 1 := Nat.max_eq_right (Nat.le_succ _)
  rw [hmax]

/-- Behaviour of `analyze_file` on a known file with no analysis row yet: inserts a new
row with the next analysis id and returns that id. -/
theorem analyze_file_create (st : Store) (f : Nat) (fr : FileRec)
    (hf : st.files.find? (fun x => x.id == f) = some fr)
    (h0 : analysesFor st f = []) :
    analyze_file st f = Except.ok
      ({ file_id := f, analysis_id := st.nextAnalysisId, result := mockRes fr },
       { st with
          analyses := st.analyses ++ [{ id := st.nextAnalysisId, file_id := f, result := mockRes fr }],
          nextAnalysisId := st.nextAnalysisId + 1 }) := by
  have hfind : st.analyses.find? (fun a => a.file_id == f) = none := by
    rw [find?_eq_head_filter]
    have h0' : st.analyses.filter (fun a => a.file_id == f) = [] := h0
    rw [h0']
    rfl
  simp only [analyze_file, mockRes, hf, hfind]

/-- Behaviour of `analyze_file` on a known file whose single analysis row is
`⟨i, f, r0⟩`: overwrites that row's `result` in place and returns the same
analysis id `i`. -/
theorem analyze_file_update (st : Store) (f : Nat) (fr : FileRec) (i : Nat) (r0 : String)
    (hf : st.files.find? (fun x => x.id == f) = some fr)
    (ha : analysesFor st f = [⟨i, f, r0⟩]) :
    analyze_file st f = Except.ok
      ({ file_id := f, analysis_id := i, result := mockRes fr },
       { st with
          analyses := st.analyses.map (fun a =>
            if a.id == i then { a with result := mockRes fr } else a) }) := by
  have hfind : st.analyses.find? (fun a => a.file_id == f) = some ⟨i, f, r0⟩ := by
    rw [find?_eq_head_filter]
    have ha' : st.analyses.filter (fun a => a.file_id == f) = [⟨i, f, r0⟩] := ha
    rw [ha']
    rfl
  simp only [analyze_file, mockRes, hf, hfind]

/-- Overwriting the `result` of the analysis row with id `i` leaves exactly
one analysis row for `f`, with the same id and the new result. -/
theorem analysesFor_update (st : Store) (f i : Nat) (r0 res : String)
    (ha : analysesFor st f = [⟨i, f, r0⟩]) :
    (st.analyses.map (fun a => if a.id == i then { a with result := res } else a)).filter
        (fun a => a.file_id == f)
      = [⟨i, f, res⟩] := by
  rw [List.filter_map]
  have hcomp : ((fun a : AnalysisRec => a.file_id == f) ∘
      (fun a : AnalysisRec => if a.id == i then { a with result := res } else a))
      = (fun a : AnalysisRec => a.file_id == f) := by
    funext a
    cases h : a.id == i <;> simp [Function.comp, h]
  rw [hcomp]
  have ha' : st.analyses.filter (fun a => a.file_id == f) = [⟨i, f, r0⟩] := ha
  rw [ha', List.map_cons, List.map_nil]
  rw [if_pos (beq_self_eq_true i)]

/-- Consecutive `analyze_file` calls on a file whose single analysis row is
already the freshly computed one are pure overwrites: every call returns the
same response, and the analysis rows for the file never change. -/
theorem analyzeCalls_steady (f : Nat) (fr : FileRec) (i : Nat) :
    ∀ (n : Nat) (st : Store),
      st.files.find? (fun x => x.id == f) = some fr →
      analysesFor st f = [⟨i, f, mockRes fr⟩] →
      ∃ st', analyzeCalls f n st
          = Except.ok (List.replicate n ⟨f, i, mockRes fr⟩, st') ∧
        st'.files = st.files ∧
        analysesFor st' f = [⟨i, f, mockRes fr⟩]
  | 0, st, hf, ha => by exact ⟨st, rfl, rfl, ha⟩
  | n + 1, st, hf, ha => by
    have hstep := analyze_file_update st f fr i (mockRes fr) hf ha
    have hupd : analysesFor
        ({ st with analyses := st.analyses.map (fun a =>
            if a.id == i then { a with result := mockRes fr } else a) }) f
        = [⟨i, f, mockRes fr⟩] :=
      analysesFor_update st f i (mockRes fr) (mockRes fr) ha
    obtain ⟨st', hcalls, hfiles, ha'⟩ :=
      analyzeCalls_steady f fr i n
        ({ st with analyses := st.analyses.map (fun a =>
            if a.id == i then { a with result := mockRes fr } else a) })
        hf hupd
    refine ⟨st', ?_, hfiles, ha'⟩
    simp only [analyzeCalls, hstep, hcalls, List.replicate_succ]

/-- Consecutive uploads of the same non-empty name succeed and assign the
consecutive versions starting right above the current maximum. -/
theorem uploadCalls_ok (name : String) (hn : ¬ name = "") :
    ∀ (sizes : List Nat) (st : Store),
      ∃ resps st', uploadCalls name sizes st = Except.ok (resps, st') ∧
        List.map (fun r => r.version) resps
          = List.range' (assignedVersion st name) sizes.length
  | [], st => ⟨[], st, rfl, by simp⟩
  | sz :: rest, st => by
    obtain ⟨resps, st', hcall, hvers⟩ := uploadCalls_ok name hn rest (uploadedStore st name sz)
    refine ⟨{ id := st.nextFileId, file_name := name, version := assignedVersion st name,
              size := sz, uploaded_at := st.clock } :: resps, st', ?_, ?_⟩
    · simp only [uploadCalls, upload_file_ok st name sz hn, hcall]
    · rw [List.map_cons, hvers, assignedVersion_uploadedStore]
      rw [List.length_cons, List.range'_succ]

/-! ### The claims -/

/-- C1: for every upload of a file with original name `name` (non-empty, so
the upload succeeds): if no File record with `original_name = name` exists,
the assigned version is 1; otherwise the assigned version is exactly the
maximum existing version among records with that name plus one, hence
strictly greater than every existing version for that name. -/
theorem upload_version_is_one_plus_max (st : Store) (name : String) (sz : Nat)
    (hn : name ≠ "") :
    ∃ resp st', upload_file st name sz = Except.ok (resp, st') ∧
      ((∀ fr ∈ st.files, fr.original_name ≠ name) → resp.version = 1) ∧
      (∀ m, maxVersionOpt st.files name = some m → resp.version = m + 1) ∧
      (∀ fr ∈ st.files, fr.original_name = name → fr.version < resp.version) := by
  refine ⟨_, _, upload_file_ok st name sz hn, ?_, ?_, ?_⟩
  · intro h
    show assignedVersion st name = 1
    have hnil : st.files.filter (fun f => f.original_name == name) = [] :=
      List.filter_eq_nil_iff.mpr (fun fr hfr => by simp [h fr hfr])
    rw [assignedVersion, fileVersions, hnil, List.map_nil]
    rfl
  · intro m hm
    show assignedVersion st name = m + 1
    rw [assignedVersion]
    rcases hv : fileVersions st.files name with _ | ⟨v, vs⟩
    · rw [maxVersionOpt, hv] at hm
      cases hm
    · rw [maxVersionOpt, hv, listMaxNat_eq_maxNat0 _ (by simp)] at hm
      injection hm with h2
      rw [h2]
  · intro fr hfr hname
    show fr.version < assignedVersion st name
    have hv : fr.version ∈ fileVersions st.files name := by
      rw [fileVersions]
      exact List.mem_map_of_mem _ (List.mem_filter.2 ⟨hfr, by simp [hname]⟩)
    have hle := le_maxNat0 hv
    rw [assignedVersion]
    omega

theorem upload_version_is_one_plus_max_witness :
    ("report.pdf" ≠ "") ∧
    (∃ resp st', upload_file emptyStore "report.pdf" 1500 = Except.ok (resp, st') ∧
      ((∀ fr ∈ emptyStore.files, fr.original_name ≠ "report.pdf") → resp.version = 1) ∧
      (∀ m, maxVersionOpt emptyStore.files "report.pdf" = some m → resp.version = m + 1) ∧
      (∀ fr ∈ emptyStore.files, fr.original_name = "report.pdf" → fr.version < resp.version)) :=
  ⟨by decide, upload_version_is_one_plus_max emptyStore "report.pdf" 1500 (by decide)⟩

/-- C2: `mock_ai_analysis` places every size in exactly one bucket of the
closed-lower-bound table (10000, 100000, 1000000) and returns that bucket's
template; the seven sample sizes 0, 9999, 10000, 99999, 100000, 999999,
1000000 land in buckets small, small, medium-small, medium-small, medium,
medium, large respectively. -/
theorem mock_analysis_bucket_correct :
    (∀ (n : String) (s : Int) (v : Nat),
        mock_ai_analysis n s v = bucketResult (sizeBucket s) n s v) ∧
    (∀ s : Int,
      (sizeBucket s = SizeBucket.small ↔ s < 10000) ∧
      (sizeBucket s = SizeBucket.mediumSmall ↔ 10000 ≤ s ∧ s < 100000) ∧
      (sizeBucket s = SizeBucket.medium ↔ 100000 ≤ s ∧ s < 1000000) ∧
      (sizeBucket s = SizeBucket.large ↔ 1000000 ≤ s)) ∧
    sizeBucket 0 = SizeBucket.small ∧
    sizeBucket 9999 = SizeBucket.small ∧
    sizeBucket 10000 = SizeBucket.mediumSmall ∧
    sizeBucket 99999 = SizeBucket.mediumSmall ∧
    sizeBucket 100000 = SizeBucket.medium ∧
    sizeBucket 999999 = SizeBucket.medium ∧
    sizeBucket 1000000 = SizeBucket.large := by
  refine ⟨?_, ?_, by decide, by decide, by decide, by decide, by decide, by decide, by decide⟩
  · intro n s v
    by_cases h1 : s < 10000
    · simp [mock_ai_analysis, sizeBucket, bucketResult, h1]
    · by_cases h2 : s < 100000
      · simp [mock_ai_analysis, sizeBucket, bucketResult, h1, h2]
      · by_cases h3 : s < 1000000
        · simp [mock_ai_analysis, sizeBucket, bucketResult, h1, h2, h3]
        · simp [mock_ai_analysis, sizeBucket, bucketResult, h1, h2, h3]
  · intro s
    by_cases h1 : s < 10000 <;> by_cases h2 : s < 100000 <;> by_cases h3 : s < 1000000 <;>
      simp [sizeBucket, h1, h2, h3] <;> omega

/-- C3: for a file id `f` with an existing File record and no analysis row
yet, any number `n + 1 ≥ 1` of consecutive `analyze_file` calls on `f` leaves
exactly one Analysis row with `file_id = f`: the first call creates it with
id `st.nextAnalysisId`, every later call overwrites its `result` in place,
every call returns that same `analysis_id`, and the file table is untouched. -/
theorem analyze_upsert_single_row (st : Store) (f : Nat) (fr : FileRec) (n : Nat)
    (hf : st.files.find? (fun x => x.id == f) = some fr)
    (h0 : analysesFor st f = []) :
    ∃ st', analyzeCalls f (n + 1) st
        = Except.ok (List.replicate (n + 1) ⟨f, st.nextAnalysisId, mockRes fr⟩, st') ∧
      analysesFor st' f = [⟨st.nextAnalysisId, f, mockRes fr⟩] ∧
      st'.files = st.files := by
  have hcreate := analyze_file_create st f fr hf h0
  have h1 : analysesFor
      ({ st with
          analyses := st.analyses ++ [{ id := st.nextAnalysisId, file_id := f, result := mockRes fr }],
          nextAnalysisId := st.nextAnalysisId + 1 }) f
      = [⟨st.nextAnalysisId, f, mockRes fr⟩] := by
    show (st.analyses ++ [(⟨st.nextAnalysisId, f, mockRes fr⟩ : AnalysisRec)]).filter
        (fun a => a.file_id == f) = _
    rw [List.filter_append]
    have h0' : st.analyses.filter (fun a => a.file_id == f) = [] := h0
    rw [h0', List.filter_cons]
    simp
  obtain ⟨st', hcalls, hfiles, ha'⟩ :=
    analyzeCalls_steady f fr st.nextAnalysisId n
      ({ st with
          analyses := st.analyses ++ [{ id := st.nextAnalysisId, file_id := f, result := mockRes fr }],
          nextAnalysisId := st.nextAnalysisId + 1 })
      hf h1
  refine ⟨st', ?_, ha', hfiles⟩
  simp only [analyzeCalls, hcreate, hcalls, List.replicate_succ]

theorem analyze_upsert_single_row_witness :
    (sampleStore1.files.find? (fun x => x.id == 1) = some sampleFile1) ∧
    (analysesFor sampleStore1 1 = []) ∧
    (∃ st', analyzeCalls 1 (1 + 1) sampleStore1
        = Except.ok (List.replicate (1 + 1) ⟨1, sampleStore1.nextAnalysisId, mockRes sampleFile1⟩, st') ∧
      analysesFor st' 1 = [⟨sampleStore1.nextAnalysisId, 1, mockRes sampleFile1⟩] ∧
      st'.files = sampleStore1.files) :=
  ⟨by decide, rfl, analyze_upsert_single_row sampleStore1 1 sampleFile1 1 (by decide) rfl⟩

/-- C4: for every `N` and every sequence of `N` consecutive uploads sharing
one (non-empty) original name, with no record of that name present before,
the versions assigned are exactly `1, 2, ..., N` in upload order. -/
theorem uploads_assign_versions_one_to_n (st : Store) (name : String) (sizes : List Nat)
    (hn : name ≠ "") (h0 : ∀ fr ∈ st.files, fr.original_name ≠ name) :
    ∃ resps st', uploadCalls name sizes st = Except.ok (resps, st') ∧
      List.map (fun r => r.version) resps = List.range' 1 sizes.length := by
  obtain ⟨resps, st', h1, h2⟩ := uploadCalls_ok name hn sizes st
  refine ⟨resps, st', h1, ?_⟩
  rw [h2]
  have hnil : st.files.filter (fun f => f.original_name == name) = [] :=
    List.filter_eq_nil_iff.mpr (fun fr hfr => by simp [h0 fr hfr])
  have hv1 : assignedVersion st name = 1 := by
    rw [assignedVersion, fileVersions, hnil, List.map_nil]
    rfl
  rw [hv1]

theorem uploads_assign_versions_one_to_n_witness :
    ("report.pdf" ≠ "") ∧
    (∀ fr ∈ emptyStore.files, fr.original_name ≠ "report.pdf") ∧
    (∃ resps st', uploadCalls "report.pdf" [1500, 1500, 1500] emptyStore = Except.ok (resps, st') ∧
      List.map (fun r => r.version) resps = List.range' 1 [1500, 1500, 1500].length) :=
  ⟨by decide, by simp [emptyStore],
   uploads_assign_versions_one_to_n emptyStore "report.pdf" [1500, 1500, 1500]
     (by decide) (by simp [emptyStore])⟩

/-- C5: for every file id with no File record, each of the three id-based
handlers — analyze, get analysis, get file info — fails with a 404 error and
returns no success payload. -/
theorem unknown_id_not_found (st : Store) (f : Nat)
    (h : st.files.find? (fun x => x.id == f) = none) :
    analyze_file st f = Except.error ⟨404, "Файл не найден"⟩ ∧
    get_analysis st f = Except.error ⟨404, "Файл не найден"⟩ ∧
    get_file_info st f = Except.error ⟨404, "Файл не найден"⟩ := by
  refine ⟨?_, ?_, ?_⟩
  · simp only [analyze_file, h]
  · simp only [get_analysis, h]
  · simp only [get_file_info, h]

theorem unknown_id_not_found_witness :
    (emptyStore.files.find? (fun x => x.id == 999999) = none) ∧
    (analyze_file emptyStore 999999 = Except.error ⟨404, "Файл не найден"⟩ ∧
     get_analysis emptyStore 999999 = Except.error ⟨404, "Файл не найден"⟩ ∧
     get_file_info emptyStore 999999 = Except.error ⟨404, "Файл не найден"⟩) :=
  ⟨rfl, unknown_id_not_found emptyStore 999999 rfl⟩

/-- C6: for a file id with an existing File record but no Analysis row,
`get_analysis` fails with a 404 whose message differs from the
file-not-found message and tells the caller to first run
POST /files/.../analyze ("Сначала запустите" = "first run").  The handler
performs no store mutation (it is a read-only function of the store). -/
theorem get_analysis_requires_prior_analysis (st : Store) (f : Nat) (fr : FileRec)
    (hf : st.files.find? (fun x => x.id == f) = some fr)
    (ha : st.analyses.find? (fun a => a.file_id == f) = none) :
    get_analysis st f = Except.error ⟨404, analysisNotFoundDetail⟩ ∧
    analysisNotFoundDetail ≠ "Файл не найден" ∧
    strWithin analysisNotFoundDetail "Сначала запустите" = true ∧
    strWithin analysisNotFoundDetail "analyze" = true := by
  refine ⟨?_, by decide, by decide, by decide⟩
  simp only [get_analysis, hf, ha]

theorem get_analysis_requires_prior_analysis_witness :
    (sampleStore1.files.find? (fun x => x.id == 1) = some sampleFile1) ∧
    (sampleStore1.analyses.find? (fun a => a.file_id == 1) = none) ∧
    (get_analysis sampleStore1 1 = Except.error ⟨404, analysisNotFoundDetail⟩ ∧
     analysisNotFoundDetail ≠ "Файл не найден" ∧
     strWithin analysisNotFoundDetail "Сначала запустите" = true ∧
     strWithin analysisNotFoundDetail "analyze" = true) :=
  ⟨by decide, rfl, get_analysis_requires_prior_analysis sampleStore1 1 sampleFile1 (by decide) rfl⟩

/-- C7: the listing returns all File records ordered by `uploaded_at`
descending (a permutation of the table, pairwise newest-first), and in the
concrete two-upload scenario the version-2 record precedes the version-1
record. -/
theorem get_files_newest_first :
    (∀ st : Store,
      (orderedFiles st).Perm st.files ∧
      List.Pairwise newerFirst (orderedFiles st) ∧
      get_files st = (orderedFiles st).map fileToItem) ∧
    (∃ r1 st1 r2 st2,
      upload_file emptyStore "report.pdf" 1500 = Except.ok (r1, st1) ∧
      upload_file st1 "report.pdf" 1500 = Except.ok (r2, st2) ∧
      r1.version = 1 ∧ r2.version = 2 ∧
      List.map (fun it => it.version) (get_files st2) = [2, 1]) := by
  constructor
  · intro st
    exact ⟨List.perm_insertionSort newerFirst st.files,
           List.sorted_insertionSort newerFirst st.files, rfl⟩
  · exact ⟨_, _, _, _, rfl, rfl, rfl, rfl, by decide⟩

/-- C8: an upload whose filename is empty fails with status 400 (a 400-class
validation error) before any state is touched: the handler returns the error
and no new store, so no bytes are written and no File record is created. -/
theorem upload_empty_filename_rejected (st : Store) (sz : Nat) :
    upload_file st "" sz = Except.error ⟨400, "Файл не выбран"⟩ := by
  rw [upload_file, if_pos rfl]

/-- C9: `mock_ai_analysis` is total over all integer sizes: for every size
below 10000 — negative sizes included, no non-negativity precondition — it
returns the small-file bucket template. -/
theorem mock_analysis_total_small (s : Int) (hs : s < 10000) (n : String) (v : Nat) :
    mock_ai_analysis n s v = bucketResult SizeBucket.small n s v := by
  simp [mock_ai_analysis, bucketResult, hs]

theorem mock_analysis_total_small_witness :
    ((-5 : Int) < 10000) ∧
    mock_ai_analysis "report.pdf" (-5) 1 = bucketResult SizeBucket.small "report.pdf" (-5) 1 :=
  ⟨by decide, mock_analysis_total_small (-5) (by decide) "report.pdf" 1⟩

/-- C10 as stated is false: in the second bucket (here size 10000, version 1)
the result string does contain the decimal representation of the version
number, because the interpolated size digits "10000" contain the substring
"1". -/
theorem bucket2_contains_version_digits :
    (10000 ≤ (10000 : Int) ∧ (10000 : Int) < 100000) ∧
    strWithin (mock_ai_analysis "report.pdf" 10000 1) (toString (1 : Nat)) = true :=
  ⟨⟨by decide, by decide⟩, by decide⟩

/-- C10 amended: for sizes in the second bucket the result string contains
the file name and the size but does not depend on the version (the version is
not interpolated: the result is the same string for every version), whereas
the result strings of the other three buckets each contain the version
number. -/
theorem bucket2_result_version_independent (n : String) (s : Int) (v v' : Nat)
    (h1 : 10000 ≤ s) (h2 : s < 100000) :
    mock_ai_analysis n s v = mock_ai_analysis n s v' ∧
    strWithin (mock_ai_analysis n s v) n = true ∧
    strWithin (mock_ai_analysis n s v) (toString s) = true ∧
    (∀ (s2 : Int) (w : Nat), ¬ (10000 ≤ s2 ∧ s2 < 100000) →
      strWithin (mock_ai_analysis n s2 w) (toString w) = true) := by
  have hlt1 : ¬ s < 10000 := by omega
  have hm : mock_ai_analysis n s v = "Файл '" ++ n ++ "' относительно небольшой (" ++
      toString s ++ " байт), новое изменение выглядит незначительным." := by
    rw [mock_ai_analysis, if_neg hlt1, if_pos h2]
  refine ⟨?_, ?_, ?_, ?_⟩
  · rw [hm, mock_ai_analysis, if_neg hlt1, if_pos h2]
  · rw [hm]
    apply strWithin_of_data _ _ ("Файл '".data)
      (("' относительно небольшой (" ++ toString s ++
        " байт), новое изменение выглядит незначительным.").data)
    simp [List.append_assoc]
  · rw [hm]
    apply strWithin_of_data _ _ (("Файл '" ++ n ++ "' относительно небольшой (").data)
      (" байт), новое изменение выглядит незначительным.".data)
    simp [List.append_assoc]
  · intro s2 w hno
    by_cases g1 : s2 < 10000
    · rw [mock_ai_analysis, if_pos g1]
      apply strWithin_of_data _ _
        (("Файл '" ++ n ++ "' очень маленький (" ++ toString s2 ++ " байт), версия ").data)
        (". Изменения минимальны.".data)
      simp [List.append_assoc]
    · have g2 : ¬ s2 < 100000 := by omega
      by_cases g3 : s2 < 1000000
      · rw [mock_ai_analysis, if_neg g1, if_neg g2, if_pos g3]
        apply strWithin_of_data _ _
          (("Файл '" ++ n ++ "' среднего размера (" ++ toString s2 ++ " байт), версия ").data)
          (". Возможны существенные изменения.".data)
        simp [List.append_assoc]
      · rw [mock_ai_analysis, if_neg g1, if_neg g2, if_neg g3]
        apply strWithin_of_data _ _
          (("Файл '" ++ n ++ "' большой (" ++ toString s2 ++ " байт), версия ").data)
          (". Документ содержит значительный объем данных.".data)
        simp [List.append_assoc]

theorem bucket2_result_version_independent_witness :
    (10000 ≤ (10000 : Int)) ∧ ((10000 : Int) < 100000) ∧
    (mock_ai_analysis "report.pdf" 10000 1 = mock_ai_analysis "report.pdf" 10000 2 ∧
     strWithin (mock_ai_analysis "report.pdf" 10000 1) "report.pdf" = true ∧
     strWithin (mock_ai_analysis "report.pdf" 10000 1) (toString (10000 : Int)) = true ∧
     (∀ (s2 : Int) (w : Nat), ¬ (10000 ≤ s2 ∧ s2 < 100000) →
       strWithin (mock_ai_analysis "report.pdf" s2 w) (toString w) = true)) :=
  ⟨by decide, by decide,
   bucket2_result_version_independent "report.pdf" 10000 1 2 (by decide) (by decide)⟩

end DocStorage
